import Mathlib

set_option maxRecDepth 8000

/-!
Verification development for the Multilingual Healthcare Chatbot repository.

The Python sources are shallowly embedded as Lean definitions:
* `healthcare_faq.py`  — FAQ corpus, question preprocessing, and the
  TF-IDF/cosine matcher `get_response`.  The external library calls
  (`TfidfVectorizer.transform`, `cosine_similarity`) are modelled by a
  similarity oracle: `get_response` receives the vector of cosine
  similarities (`Option (List ℚ)`, `none` standing for an exception
  raised inside that library code), and `np.argmax` is modelled by its
  documented semantics — the first index attaining the maximum.
* `translation_service.py` — the MarianMT model calls are modelled by an
  output oracle (`Except Unit String`, `.error` standing for an
  exception raised by the model).
* `query_logger.py` — the SQLite table is modelled as an in-memory list
  of records; `uuid.uuid4()` is modelled as an entropy counter carried in
  the state, each draw yielding a fresh natural number.
* `app.py` — the `/api/chat` handler, with the downstream service calls
  (lines 46–65) abstracted as a pipeline oracle.

Strings are modelled over their character sequences (ASCII fragment of
Python's `str`); machine floats are modelled as exact rationals.
-/

/-! ## healthcare_faq.py : data model -/

/-- One FAQ corpus entry (`{"question": ..., "answer": ..., "category": ...}`). -/
structure FAQEntry where
  question : String
  answer : String
  category : String
deriving DecidableEq, Repr

/-- The fixed 28-entry corpus returned by
`HealthcareFAQ._create_healthcare_faq_dataset` (healthcare_faq.py lines 46-216),
embedded verbatim. -/
def faqDataset : List FAQEntry := [
  ⟨"What are the symptoms of flu?",
   "Common flu symptoms include fever, chills, muscle aches, cough, congestion, runny nose, headaches, and fatigue. Symptoms typically last 3-7 days.",
   "general_health"⟩,
  ⟨"How can I prevent getting sick?",
   "To prevent illness: wash hands frequently, get vaccinated, eat a balanced diet, exercise regularly, get adequate sleep, manage stress, and avoid close contact with sick people.",
   "prevention"⟩,
  ⟨"What should I do if I have a fever?",
   "For fever: rest, drink plenty of fluids, take fever-reducing medication like acetaminophen or ibuprofen, and seek medical attention if fever exceeds 103°F (39.4°C) or persists for more than 3 days.",
   "symptoms"⟩,
  ⟨"What are COVID-19 symptoms?",
   "COVID-19 symptoms include fever, cough, shortness of breath, fatigue, muscle aches, headache, loss of taste or smell, sore throat, congestion, nausea, and diarrhea.",
   "covid19"⟩,
  ⟨"How long should I quarantine if I have COVID-19?",
   "If you test positive for COVID-19, isolate for at least 5 days from symptom onset or positive test. You can end isolation after day 5 if fever-free for 24 hours and symptoms are improving.",
   "covid19"⟩,
  ⟨"How much acetaminophen can I take?",
   "Adults can take 325-650mg of acetaminophen every 4-6 hours, not exceeding 3000mg per day. Always follow package instructions and consult a healthcare provider for personalized advice.",
   "medications"⟩,
  ⟨"Can I take ibuprofen with acetaminophen?",
   "Yes, ibuprofen and acetaminophen can generally be taken together as they work differently. However, consult your healthcare provider or pharmacist for proper dosing and timing.",
   "medications"⟩,
  ⟨"When should I go to the emergency room?",
   "Seek emergency care for: chest pain, difficulty breathing, severe bleeding, signs of stroke, severe allergic reactions, high fever with stiff neck, or any life-threatening condition.",
   "emergency"⟩,
  ⟨"What are signs of a heart attack?",
   "Heart attack symptoms include chest pain or discomfort, shortness of breath, nausea, lightheadedness, cold sweats, and pain in arms, back, neck, jaw, or stomach. Call 911 immediately.",
   "emergency"⟩,
  ⟨"How can I manage diabetes?",
   "Diabetes management includes monitoring blood sugar, taking medications as prescribed, eating a balanced diet, exercising regularly, maintaining a healthy weight, and regular medical checkups.",
   "chronic_conditions"⟩,
  ⟨"What foods should diabetics avoid?",
   "Diabetics should limit sugary drinks, refined carbohydrates, processed foods, high-sodium foods, and trans fats. Focus on whole grains, lean proteins, vegetables, and fruits in moderation.",
   "chronic_conditions"⟩,
  ⟨"How can I manage stress?",
   "Stress management techniques include regular exercise, meditation, deep breathing, adequate sleep, healthy eating, social support, time management, and professional counseling when needed.",
   "mental_health"⟩,
  ⟨"What are signs of depression?",
   "Depression symptoms include persistent sadness, loss of interest, fatigue, sleep changes, appetite changes, difficulty concentrating, feelings of worthlessness, and thoughts of self-harm.",
   "mental_health"⟩,
  ⟨"What constitutes a healthy diet?",
   "A healthy diet includes fruits, vegetables, whole grains, lean proteins, healthy fats, and adequate water. Limit processed foods, added sugars, and excessive sodium.",
   "nutrition"⟩,
  ⟨"How much water should I drink daily?",
   "Adults should aim for about 8 glasses (64 ounces) of water daily, though needs vary based on activity level, climate, and individual factors. Listen to your body\x27s thirst cues.",
   "nutrition"⟩,
  ⟨"How much exercise do I need?",
   "Adults should get at least 150 minutes of moderate-intensity aerobic activity or 75 minutes of vigorous activity weekly, plus muscle-strengthening activities twice a week.",
   "fitness"⟩,
  ⟨"Is it safe to exercise when sick?",
   "Light exercise may be okay with mild cold symptoms above the neck. Avoid exercise with fever, body aches, or symptoms below the neck. Listen to your body and rest when needed.",
   "fitness"⟩,
  ⟨"How much sleep do adults need?",
   "Most adults need 7-9 hours of sleep per night. Good sleep hygiene includes consistent bedtime, comfortable environment, avoiding screens before bed, and limiting caffeine.",
   "sleep"⟩,
  ⟨"What can I do for insomnia?",
   "For insomnia: maintain regular sleep schedule, create relaxing bedtime routine, avoid caffeine late in day, exercise regularly, manage stress, and consult a healthcare provider if persistent.",
   "sleep"⟩,
  ⟨"What vaccines do adults need?",
   "Adults typically need annual flu vaccine, COVID-19 boosters, Tdap every 10 years, and others based on age, health conditions, and travel. Consult your healthcare provider.",
   "vaccinations"⟩,
  ⟨"Are vaccines safe?",
   "Yes, vaccines are rigorously tested for safety and effectiveness. Serious side effects are rare. The benefits of vaccination far outweigh the risks for most people.",
   "vaccinations"⟩,
  ⟨"How often should women get mammograms?",
   "Women should discuss mammogram screening with their healthcare provider. Generally recommended annually or biannually starting at age 40-50, depending on risk factors.",
   "womens_health"⟩,
  ⟨"What are normal menstrual cycle symptoms?",
   "Normal menstrual symptoms may include mild cramping, bloating, mood changes, and breast tenderness. Severe pain, heavy bleeding, or irregular cycles should be evaluated.",
   "womens_health"⟩,
  ⟨"When should men get prostate screening?",
   "Men should discuss prostate screening with their healthcare provider starting at age 50, or earlier (age 45) if at higher risk due to family history or ethnicity.",
   "mens_health"⟩,
  ⟨"How can I protect my skin from sun damage?",
   "Protect skin by using broad-spectrum SPF 30+ sunscreen, wearing protective clothing, seeking shade during peak hours (10am-4pm), and avoiding tanning beds.",
   "skin_health"⟩,
  ⟨"When should I see a dermatologist about a mole?",
   "See a dermatologist if a mole changes in size, shape, color, or texture, becomes asymmetrical, has irregular borders, or if you notice new moles after age 30.",
   "skin_health"⟩,
  ⟨"What are common allergy symptoms?",
   "Common allergy symptoms include sneezing, runny nose, itchy eyes, skin rash, hives, and in severe cases, difficulty breathing or swallowing (anaphylaxis).",
   "allergies"⟩,
  ⟨"How can I manage seasonal allergies?",
   "Manage seasonal allergies by avoiding triggers, using air purifiers, keeping windows closed during high pollen days, taking antihistamines, and consulting an allergist if needed.",
   "allergies"⟩]

/-- The mutable state of a `HealthcareFAQ` object.  The `vectorizer` and
`faq_vectors` fields of the Python class are external library objects and are
modelled by the similarity oracle fed to `get_response`. -/
structure FAQState where
  faq_data : List FAQEntry
  last_confidence : ℚ
  ready : Bool
deriving Repr

/-- `HealthcareFAQ.__init__` (healthcare_faq.py lines 12-17). -/
def mkFAQ : FAQState := { faq_data := [], last_confidence := 0, ready := false }

/-- `HealthcareFAQ.initialize` (healthcare_faq.py lines 19-44): on success the
corpus is loaded and the system becomes ready; on an exception during dataset
creation or vectorizer fitting (`ok = false`) it is marked not ready. -/
def initFaq (st : FAQState) (ok : Bool) : FAQState :=
  if ok then { st with faq_data := faqDataset, ready := true }
  else { st with ready := false }

/-! ## healthcare_faq.py : question preprocessing -/

/-- ASCII fragment of the Python regex class `\s`. -/
def isPySpace (c : Char) : Bool :=
  c == ' ' || c == '\t' || c == '\n' || c == '\x0d' || c == '\x0b' || c == '\x0c'

/-- ASCII fragment of the Python regex class `\w` (letters, digits, underscore). -/
def isPyWord (c : Char) : Bool :=
  c.isAlphanum || c == '_'

/-- A character kept by `re.sub(r'[^\w\s\-]', '', question)`:
word characters, whitespace, and hyphens survive; everything else is removed. -/
def keepChar (c : Char) : Bool :=
  isPyWord c || isPySpace c || c == '-'

/-- `re.sub(r'\s+', ' ', question)`: every maximal run of whitespace is
replaced by a single space. -/
def collapseWS : List Char → List Char
  | [] => []
  | c :: cs =>
    if isPySpace c then ' ' :: collapseWS (cs.dropWhile isPySpace)
    else c :: collapseWS cs
termination_by l => l.length
decreasing_by
  · exact Nat.lt_succ_of_le ((List.dropWhile_sublist _).length_le)
  · exact Nat.lt_succ_of_le (Nat.le_refl _)

/-- Python `str.strip()`, leading part: drop leading whitespace. -/
def lstripWS (l : List Char) : List Char := l.dropWhile isPySpace

/-- Python `str.strip()`, trailing part: drop trailing whitespace. -/
def rstripWS (l : List Char) : List Char := (l.reverse.dropWhile isPySpace).reverse

/-- Python `str.strip()`: drop leading and trailing whitespace. -/
def stripWS (l : List Char) : List Char := rstripWS (lstripWS l)

/-- `HealthcareFAQ._preprocess_question` (healthcare_faq.py lines 247-258):
lowercase, collapse whitespace runs to single spaces and strip the ends, then
delete every character outside `[\w\s-]`. -/
def preprocess_question (s : String) : String :=
  String.mk ((stripWS (collapseWS (s.data.map Char.toLower))).filter keepChar)

/-! ## healthcare_faq.py : response selection -/

/-- Maximum of a list of rationals (`0` on the empty list, which the matcher
never produces for a non-empty corpus). -/
def listMax : List ℚ → ℚ
  | [] => 0
  | x :: xs => xs.foldl max x

/-- `np.argmax` on a similarity vector: the first (lowest) index attaining the
maximum value, per the NumPy documentation ("In case of multiple occurrences
of the maximum values, the indices corresponding to the first occurrence are
returned"). -/
def npArgmax (l : List ℚ) : Nat :=
  l.findIdx (fun x => x == listMax l)

/-- The not-ready reply of `get_response` (healthcare_faq.py line 221). -/
def notReadyResponse : String :=
  "I\x27m sorry, the healthcare FAQ system is not ready. Please try again later."

/-- The caught-exception reply of `get_response` (healthcare_faq.py line 245). -/
def processErrorResponse : String :=
  "I\x27m sorry, I encountered an error while processing your question. Please try rephrasing or contact a healthcare professional."

/-- `HealthcareFAQ._get_default_response` (healthcare_faq.py lines 260-263). -/
def default_response : String :=
  "I\x27m not sure about that specific question. For accurate medical advice, please consult with a healthcare professional. You can also try rephrasing your question or asking about common health topics like symptoms, medications, or prevention."

/-- `HealthcareFAQ.get_response` (healthcare_faq.py lines 218-245).
`sim` is the similarity oracle: `some sims` is the flattened vector of cosine
similarities between the (preprocessed, vectorized) user question and the
corpus question vectors; `none` models an exception raised inside the
vectorize/similarity library calls, which the `except` clause catches.
The assignment `self.last_confidence = similarities[best_match_idx]` happens
before the answer lookup, so an out-of-range corpus access (modelled by the
`none` branch of `get?`) still leaves the updated confidence behind. -/
def get_response (st : FAQState) (sim : Option (List ℚ)) : String × FAQState :=
  if st.ready then
    match sim with
    | none => (processErrorResponse, st)
    | some sims =>
      if sims.isEmpty then (processErrorResponse, st)
      else
        let best_match_idx := npArgmax sims
        let conf := sims.getD best_match_idx 0
        let st1 := { st with last_confidence := conf }
        if 1/10 < conf then
          match st.faq_data.get? best_match_idx with
          | some entry => (entry.answer, st1)
          | none => (processErrorResponse, st1)
        else
          (default_response, st1)
  else
    (notReadyResponse, st)

/-- `HealthcareFAQ.get_last_confidence` (healthcare_faq.py lines 265-267). -/
def get_last_confidence (st : FAQState) : ℚ := st.last_confidence

/-! ## Specification-side normalization (for claim C8)

The spec describes preprocessing as "lowercase, collapse whitespace, strip
punctuation except hyphens".  The collapse-and-strip step is formalized
independently here as: split into maximal non-whitespace words, rejoin with
single spaces. -/

/-- The maximal non-whitespace runs of a character list, in order. -/
def wordsWS : List Char → List (List Char)
  | [] => []
  | c :: cs =>
    if isPySpace c then wordsWS (cs.dropWhile isPySpace)
    else (c :: cs.takeWhile (fun d => !isPySpace d)) :: wordsWS (cs.dropWhile (fun d => !isPySpace d))
termination_by l => l.length
decreasing_by
  · exact Nat.lt_succ_of_le ((List.dropWhile_sublist _).length_le)
  · exact Nat.lt_succ_of_le ((List.dropWhile_sublist _).length_le)

/-- Join words with single spaces. -/
def joinSp : List (List Char) → List Char
  | [] => []
  | w :: ws => w ++ (if ws.isEmpty then [] else ' ' :: joinSp ws)

/-- The normalization described by the spec sentence for `_preprocess_question`:
lowercase, rebuild the text as its whitespace-separated words joined by single
spaces (collapsing runs, stripping the ends), then remove every character that
is not a word character, whitespace, or a hyphen. -/
def specNormalize (s : String) : String :=
  String.mk ((joinSp (wordsWS (s.data.map Char.toLower))).filter keepChar)

/-! ## translation_service.py -/

/-- The state of a `TranslationService` object: the readiness flag and the set
of loaded model keys (`self.models` maps keys like `"fr_to_en"` / `"en_to_fr"`
to external model objects; only key membership matters to control flow). -/
structure TranslationState where
  ready : Bool
  modelKeys : List String
deriving Repr

/-- `TranslationService.translate_to_english` (translation_service.py lines
54-86).  `modelOut` is the oracle for the tokenizer/model/generate/decode
calls: `.ok t` is the decoded translation, `.error ()` an exception raised by
the library, which the `except` clause catches by returning the input. -/
def translate_to_english (svc : TranslationState) (text source_language : String)
    (modelOut : Except Unit String) : String :=
  if source_language == "en" then text
  else if !svc.ready then text
  else
    let model_key := source_language ++ "_to_en"
    if !(svc.modelKeys.contains model_key) then text
    else
      match modelOut with
      | .ok translated_text => translated_text
      | .error _ => text

/-- `TranslationService.translate_from_english` (translation_service.py lines
88-120), with the same model-call oracle. -/
def translate_from_english (svc : TranslationState) (text target_language : String)
    (modelOut : Except Unit String) : String :=
  if target_language == "en" then text
  else if !svc.ready then text
  else
    let model_key := "en_to_" ++ target_language
    if !(svc.modelKeys.contains model_key) then text
    else
      match modelOut with
      | .ok translated_text => translated_text
      | .error _ => text

/-! ## query_logger.py -/

/-- One row of the `queries` table (query_logger.py lines 32-44).  Ids and
session ids are the draws of the uuid entropy counter, modelled as naturals;
timestamps are modelled as integers; `response`, `accuracy`, `response_time`
are NULL until `log_response` fills them. -/
structure QueryRecord where
  id : Nat
  timestamp : Int
  user_message : String
  language : String
  response : Option String
  accuracy : Option ℚ
  response_time : Option ℚ
  session_id : Nat
deriving DecidableEq, Repr

/-- The state of a `QueryLogger` object: the readiness flag, the rows of the
`queries` table, and the uuid entropy counter (each `uuid.uuid4()` call draws
the current counter value and advances it). -/
structure LoggerState where
  ready : Bool
  db : List QueryRecord
  uuidCtr : Nat
deriving Repr

/-- `QueryLogger.__init__` + a fresh database:  not ready, empty table. -/
def mkLogger : LoggerState := { ready := false, db := [], uuidCtr := 0 }

/-- `QueryLogger.initialize` (query_logger.py lines 16-24): on success the
logger becomes ready; on a database exception (`ok = false`) it stays not
ready. -/
def initLogger (st : LoggerState) (ok : Bool) : LoggerState :=
  { st with ready := ok }

/-- `QueryLogger.log_query` (query_logger.py lines 60-87).
If the logger is not ready, a fresh uuid is returned and nothing is stored.
Otherwise a uuid is drawn for the query id, another for the session id when
none is supplied, and the row is inserted; `dbFault = true` models an
exception from sqlite3, in which case nothing is committed and yet another
fresh uuid is returned (so the caller receives an id that is NOT the inserted
id). -/
def log_query (st : LoggerState) (now : Int) (user_message language : String)
    (session_id : Option Nat) (dbFault : Bool) : Nat × LoggerState :=
  if !st.ready then
    (st.uuidCtr, { st with uuidCtr := st.uuidCtr + 1 })
  else
    let query_id := st.uuidCtr
    let (sid, ctr1) :=
      match session_id with
      | some s => (s, st.uuidCtr + 1)
      | none => (st.uuidCtr + 1, st.uuidCtr + 2)
    if dbFault then
      (ctr1, { st with uuidCtr := ctr1 + 1 })
    else
      (query_id,
       { st with
          db := st.db ++ [{ id := query_id, timestamp := now,
                            user_message := user_message, language := language,
                            response := none, accuracy := none,
                            response_time := none, session_id := sid }],
          uuidCtr := ctr1 })

/-- `QueryLogger.log_response` (query_logger.py lines 89-108): a no-op when the
logger is not ready or the UPDATE raises; otherwise every row whose id matches
`query_id` gets its response, accuracy and response_time set. -/
def log_response (st : LoggerState) (query_id : Nat) (response : String)
    (accuracy : ℚ) (response_time : ℚ) (dbFault : Bool) : LoggerState :=
  if !st.ready then st
  else if dbFault then st
  else
    { st with
        db := st.db.map fun r =>
          if r.id == query_id then
            { r with response := some response, accuracy := some accuracy,
                     response_time := some response_time }
          else r }

/-- The rows with a non-NULL response (`WHERE response IS NOT NULL`). -/
def answeredRows (db : List QueryRecord) : List QueryRecord :=
  db.filter fun r => r.response.isSome

/-- The non-NULL accuracies (`WHERE accuracy IS NOT NULL`). -/
def accuracies (db : List QueryRecord) : List ℚ :=
  db.filterMap fun r => r.accuracy

/-- SQL `AVG` combined with the Python `or 0.0` guard: the arithmetic mean of
the values, `0` when there are none. -/
def sqlAvg (l : List ℚ) : ℚ :=
  if l.length = 0 then 0 else l.sum / l.length

/-- Python `round(x, 3)`: round to 3 decimal places, ties to even
(banker\x27s rounding). -/
def pyRound3 (q : ℚ) : ℚ :=
  let x := q * 1000
  let f : ℤ := Int.floor x
  let frac := x - f
  let r : ℤ :=
    if frac < 1/2 then f
    else if 1/2 < frac then f + 1
    else if f % 2 = 0 then f else f + 1
  (r : ℚ) / 1000

/-- `ORDER BY timestamp DESC`: row `a` may precede row `b` when
`b.timestamp ≤ a.timestamp`. -/
def tsGe (a b : QueryRecord) : Prop := b.timestamp ≤ a.timestamp

instance : DecidableRel tsGe := fun a b => inferInstanceAs (Decidable (b.timestamp ≤ a.timestamp))

instance : IsTotal QueryRecord tsGe := ⟨fun a b => le_total b.timestamp a.timestamp⟩

instance : IsTrans QueryRecord tsGe := ⟨fun _ _ _ h1 h2 => le_trans h2 h1⟩

/-- The message shown for a recent query (query_logger.py line 173):
`row[1][:100] + '...' if len(row[1]) > 100 else row[1]`. -/
def displayMessage (m : String) : String :=
  if m.length > 100 then m.take 100 ++ "..." else m

/-- One element of the `recent_queries` list (query_logger.py lines 170-178). -/
structure RecentEntry where
  timestamp : Int
  message : String
  language : String
  accuracy : Option ℚ
deriving DecidableEq, Repr

/-- `recent_queries` projection of a row. -/
def mkRecent (r : QueryRecord) : RecentEntry :=
  { timestamp := r.timestamp, message := displayMessage r.user_message,
    language := r.language, accuracy := r.accuracy }

/-- The fields of the dictionary returned by `QueryLogger.get_statistics` that
the verified claims concern.  The `language_distribution`, `daily_queries`,
`accuracy_distribution` and `generated_at` entries involve no claim and are
omitted from the view. -/
structure StatsView where
  total_queries : Nat
  average_accuracy : ℚ
  recent_queries : List RecentEntry
deriving DecidableEq, Repr

/-- `QueryLogger.get_statistics` (query_logger.py lines 110-194), restricted
to the claimed fields.  Not ready yields the `{"error": "Logger not ready"}`
dictionary; `dbFault = true` models a sqlite3 exception caught at line 192.
* `total_queries`: `COUNT(*) WHERE response IS NOT NULL`;
* `average_accuracy`: `round(AVG(accuracy) or 0.0, 3)` over non-NULL rows;
* `recent_queries`: the answered rows ordered by timestamp descending,
  first 10, each projected through `mkRecent`. -/
def get_statistics (st : LoggerState) (dbFault : Bool) : Except String StatsView :=
  if !st.ready then .error "Logger not ready"
  else if dbFault then .error "database error"
  else .ok
    { total_queries := (answeredRows st.db).length
      average_accuracy := pyRound3 (sqlAvg (accuracies st.db))
      recent_queries :=
        ((List.insertionSort tsGe (answeredRows st.db)).take 10).map mkRecent }

/-! ## app.py : the /api/chat handler -/

/-- The JSON body of a chat request as the handler reads it:
`data.get('message', '')` and `data.get('language', 'en')`. -/
structure ChatRequest where
  message : Option String
  language : Option String
deriving Repr

/-- A JSON value appearing in the handler output. -/
inductive JsonVal where
  | str (s : String)
  | num (q : ℚ)
deriving DecidableEq, Repr

/-- The outcome of app.py lines 46-65 for a non-empty message: the final
(possibly translated) response text, the accuracy read back from
`healthcare_faq.get_last_confidence()`, and the query id from
`query_logger.log_query`. -/
structure PipelineResult where
  final_response : String
  accuracy : ℚ
  query_id : Nat
deriving Repr

/-- Python `str.strip()` on a string. -/
def pyStrip (s : String) : String := String.mk (stripWS s.data)

/-- The `chat` handler (app.py lines 34-80).  `body` is the parsed JSON body
(`.error ()` models `request.get_json()` raising or returning a non-dict, so
that line 39 raises); `pipeline` is the oracle for lines 46-65 (`.error ()`
models an unexpected exception there).  The result is the HTTP status code
paired with the JSON object as an ordered key/value list. -/
def chat (body : Except Unit ChatRequest)
    (pipeline : String → String → Except Unit PipelineResult) :
    Nat × List (String × JsonVal) :=
  match body with
  | .error _ => (500, [("error", .str "Internal server error")])
  | .ok data =>
    let user_message := pyStrip (data.message.getD "")
    let target_language := data.language.getD "en"
    if user_message == "" then
      (400, [("error", .str "Message cannot be empty")])
    else
      match pipeline user_message target_language with
      | .error _ => (500, [("error", .str "Internal server error")])
      | .ok pr =>
        (200, [("response", .str pr.final_response),
               ("language", .str target_language),
               ("accuracy", .num pr.accuracy),
               ("query_id", .num pr.query_id)])

/-! ## Lemmas: whitespace normalization (claim C8) -/

theorem collapseWS_nil : collapseWS [] = [] := by
  simp [collapseWS]

theorem collapseWS_cons_space {c : Char} {cs : List Char} (h : isPySpace c = true) :
    collapseWS (c :: cs) = ' ' :: collapseWS (cs.dropWhile isPySpace) := by
  rw [collapseWS]
  simp [h]

theorem collapseWS_cons_nonspace {c : Char} {cs : List Char} (h : isPySpace c = false) :
    collapseWS (c :: cs) = c :: collapseWS cs := by
  rw [collapseWS]
  simp [h]

theorem wordsWS_nil : wordsWS [] = [] := by
  simp [wordsWS]

theorem wordsWS_cons_space {c : Char} {cs : List Char} (h : isPySpace c = true) :
    wordsWS (c :: cs) = wordsWS (cs.dropWhile isPySpace) := by
  rw [wordsWS]
  simp [h]

theorem wordsWS_cons_nonspace {c : Char} {cs : List Char} (h : isPySpace c = false) :
    wordsWS (c :: cs) =
      (c :: cs.takeWhile (fun d => !isPySpace d)) ::
        wordsWS (cs.dropWhile (fun d => !isPySpace d)) := by
  rw [wordsWS]
  simp [h]

/-- `collapseWS` passes a run of non-whitespace characters through unchanged. -/
theorem collapseWS_word {w : List Char} (hw : ∀ c ∈ w, isPySpace c = false)
    (r : List Char) : collapseWS (w ++ r) = w ++ collapseWS r := by
  induction w with
  | nil => rfl
  | cons c cs ih =>
    have hc : isPySpace c = false := hw c (List.mem_cons_self c cs)
    have ih2 := ih (fun d hd => hw d (List.mem_cons_of_mem c hd))
    simp only [List.cons_append, collapseWS_cons_nonspace hc, ih2]

theorem lstripWS_cons_space {c : Char} {m : List Char} (h : isPySpace c = true) :
    lstripWS (c :: m) = lstripWS m := by
  simp [lstripWS, List.dropWhile_cons, h]

theorem lstripWS_cons_nonspace {c : Char} {m : List Char} (h : isPySpace c = false) :
    lstripWS (c :: m) = c :: m := by
  simp [lstripWS, List.dropWhile_cons, h]

theorem rstripWS_nil : rstripWS [] = [] := rfl

/-- Peeling one character off the front of `rstripWS`. -/
theorem rstripWS_cons (c : Char) (m : List Char) :
    rstripWS (c :: m) =
      if (m.reverse.dropWhile isPySpace).isEmpty then
        (if isPySpace c then [] else [c])
      else c :: rstripWS m := by
  unfold rstripWS
  rw [show (c :: m).reverse = m.reverse ++ [c] by simp]
  rw [List.dropWhile_append]
  by_cases he : (m.reverse.dropWhile isPySpace).isEmpty
  · simp only [he, if_pos]
    by_cases hc : isPySpace c
    · simp [List.dropWhile_cons, hc]
    · simp [List.dropWhile_cons, hc]
  · simp only [he, if_neg, Bool.false_eq_true, not_false_iff]
    simp

/-- `rstripWS m` is empty exactly when the reversed list loses everything to
the whitespace drop. -/
theorem rstripWS_eq_nil_of_isEmpty {m : List Char}
    (he : (m.reverse.dropWhile isPySpace).isEmpty = true) : rstripWS m = [] := by
  unfold rstripWS
  rw [List.isEmpty_iff] at he
  rw [he]
  rfl

/-- `rstripWS` keeps a non-whitespace leading run intact. -/
theorem rstripWS_word {w : List Char} (hw : ∀ c ∈ w, isPySpace c = false)
    (hne : w ≠ []) (m : List Char) : rstripWS (w ++ m) = w ++ rstripWS m := by
  induction w with
  | nil => exact absurd rfl hne
  | cons c cs ih =>
    have hc : isPySpace c = false := hw c (List.mem_cons_self c cs)
    by_cases hcs : cs = []
    · subst hcs
      rw [List.singleton_append, rstripWS_cons c m]
      by_cases he : (m.reverse.dropWhile isPySpace).isEmpty
      · rw [if_pos he, if_neg (by simp [hc]), rstripWS_eq_nil_of_isEmpty he]
        rfl
      · rw [if_neg he]
        rfl
    · have ihcs := ih (fun d hd => hw d (List.mem_cons_of_mem c hd)) hcs
      have hnonempty : ¬ ((cs ++ m).reverse.dropWhile isPySpace).isEmpty = true := by
        intro hemp
        have h0 : rstripWS (cs ++ m) = [] := rstripWS_eq_nil_of_isEmpty hemp
        rw [ihcs] at h0
        exact hcs (List.append_eq_nil.mp h0).1
      calc rstripWS ((c :: cs) ++ m) = rstripWS (c :: (cs ++ m)) := by rw [List.cons_append]
        _ = c :: rstripWS (cs ++ m) := by rw [rstripWS_cons c (cs ++ m), if_neg hnonempty]
        _ = (c :: cs) ++ rstripWS m := by rw [ihcs, List.cons_append]

theorem stripWS_cons_space {c : Char} {m : List Char} (h : isPySpace c = true) :
    stripWS (c :: m) = stripWS m := by
  unfold stripWS
  rw [lstripWS_cons_space h]

theorem stripWS_word_head {c : Char} {m : List Char} (h : isPySpace c = false) :
    stripWS (c :: m) = rstripWS (c :: m) := by
  unfold stripWS
  rw [lstripWS_cons_nonspace h]

/-- A list whose head is not whitespace right-strips to a non-empty list. -/
theorem rstripWS_cons_nonspace_ne_nil {c : Char} {m : List Char}
    (h : isPySpace c = false) : rstripWS (c :: m) ≠ [] := by
  have := @rstripWS_word [c] (by simpa using h) (by simp) m
  rw [List.singleton_append] at this
  rw [this]
  simp

/-- The right-strip of the collapsed text after a word: a whitespace-leading
tail contributes either nothing (no further word) or a single space followed
by the join of its words. -/
theorem rstrip_collapse_tail (d : Char) (ds : List Char) (hd : isPySpace d = true)
    (ih : stripWS (collapseWS (d :: ds)) = joinSp (wordsWS (d :: ds))) :
    rstripWS (collapseWS (d :: ds)) =
      if (wordsWS (d :: ds)).isEmpty then [] else ' ' :: joinSp (wordsWS (d :: ds)) := by
  have hsp : isPySpace ' ' = true := by decide
  rw [collapseWS_cons_space hd, wordsWS_cons_space hd]
  rw [collapseWS_cons_space hd, wordsWS_cons_space hd, stripWS_cons_space hsp] at ih
  cases hr1 : ds.dropWhile isPySpace with
  | nil =>
    rw [collapseWS_nil, wordsWS_nil]
    decide
  | cons e es =>
    have h0 := List.head?_dropWhile_not isPySpace ds
    rw [hr1] at h0
    have he : isPySpace e = false := by simpa using h0
    rw [hr1] at ih
    have hne : rstripWS (collapseWS (e :: es)) ≠ [] := by
      rw [collapseWS_cons_nonspace he]
      exact rstripWS_cons_nonspace_ne_nil he
    have hih2 : rstripWS (collapseWS (e :: es)) = joinSp (wordsWS (e :: es)) := by
      rw [collapseWS_cons_nonspace he, stripWS_word_head he] at ih
      rw [collapseWS_cons_nonspace he]
      exact ih
    have hcond : ¬ ((collapseWS (e :: es)).reverse.dropWhile isPySpace).isEmpty = true := by
      intro hemp
      exact hne (rstripWS_eq_nil_of_isEmpty hemp)
    rw [rstripWS_cons ' ' (collapseWS (e :: es)), if_neg hcond, hih2]
    have hwne : (wordsWS (e :: es)).isEmpty = false := by
      rw [wordsWS_cons_nonspace he]
      rfl
    rw [hwne]
    rfl

/-- The core of claim C8: applying the source\x27s whitespace pipeline
(`re.sub` of whitespace runs, then `.strip()`) is the same as splitting into
maximal non-whitespace words and rejoining them with single spaces. -/
theorem stripWS_collapseWS (l : List Char) :
    stripWS (collapseWS l) = joinSp (wordsWS l) := by
  induction l using wordsWS.induct with
  | case1 =>
    rw [collapseWS_nil, wordsWS_nil]
    rfl
  | case2 c cs h ih =>
    have hsp : isPySpace ' ' = true := by decide
    rw [collapseWS_cons_space h, wordsWS_cons_space h, stripWS_cons_space hsp]
    exact ih
  | case3 c cs h ih =>
    have hc : isPySpace c = false := by simpa using h
    rw [wordsWS_cons_nonspace hc]
    have hwns : ∀ d ∈ (c :: cs.takeWhile (fun d => !isPySpace d)), isPySpace d = false := by
      intro d hd
      rcases List.mem_cons.mp hd with hdc | hdt
      · exact hdc ▸ hc
      · have := List.mem_takeWhile_imp hdt
        simpa using this
    have hsplit : c :: cs =
        (c :: cs.takeWhile (fun d => !isPySpace d)) ++ cs.dropWhile (fun d => !isPySpace d) := by
      rw [List.cons_append, List.takeWhile_append_dropWhile]
    have hlhs : stripWS (collapseWS (c :: cs)) =
        (c :: cs.takeWhile (fun d => !isPySpace d)) ++
          rstripWS (collapseWS (cs.dropWhile (fun d => !isPySpace d))) := by
      conv_lhs => rw [hsplit]
      rw [collapseWS_word hwns, List.cons_append, stripWS_word_head hc, ← List.cons_append]
      exact rstripWS_word hwns (by simp) _
    rw [hlhs]
    have hjoin : joinSp ((c :: cs.takeWhile (fun d => !isPySpace d)) ::
        wordsWS (cs.dropWhile (fun d => !isPySpace d))) =
        (c :: cs.takeWhile (fun d => !isPySpace d)) ++
          (if (wordsWS (cs.dropWhile (fun d => !isPySpace d))).isEmpty then []
           else ' ' :: joinSp (wordsWS (cs.dropWhile (fun d => !isPySpace d)))) := rfl
    rw [hjoin]
    refine congrArg (fun x => (c :: cs.takeWhile (fun d => !isPySpace d)) ++ x) ?_
    cases hrr : cs.dropWhile (fun d => !isPySpace d) with
    | nil =>
      rw [collapseWS_nil, wordsWS_nil, rstripWS_nil]
      rfl
    | cons d ds =>
      rw [hrr] at ih
      have h0 := List.head?_dropWhile_not (fun d => !isPySpace d) cs
      rw [hrr] at h0
      have hd : isPySpace d = true := by simpa using h0
      exact rstrip_collapse_tail d ds hd ih

/-- C8: for every input string, `_preprocess_question` produces exactly the
string obtained by lowercasing, collapsing whitespace runs to single spaces
with the ends stripped (formalized independently as words rejoined by single
spaces), and removing every character that is not a word character,
whitespace, or a hyphen. -/
theorem preprocess_eq_specNormalize (s : String) :
    preprocess_question s = specNormalize s := by
  unfold preprocess_question specNormalize
  rw [stripWS_collapseWS]

/-! ## Lemmas: maximum and first-argmax (claims C1, C2, C9) -/

theorem foldl_max_mem (xs : List ℚ) (a : ℚ) : xs.foldl max a ∈ a :: xs := by
  induction xs generalizing a with
  | nil => simp [List.foldl]
  | cons x xs ih =>
    rw [List.foldl_cons]
    rcases List.mem_cons.mp (ih (max a x)) with hm | hm
    · rw [hm]
      rcases max_choice a x with hc | hc
      · rw [hc]
        exact List.mem_cons_self _ _
      · rw [hc]
        exact List.mem_cons_of_mem _ (List.mem_cons_self _ _)
    · exact List.mem_cons_of_mem _ (List.mem_cons_of_mem _ hm)

theorem le_foldl_max_init (xs : List ℚ) (a : ℚ) : a ≤ xs.foldl max a := by
  induction xs generalizing a with
  | nil => exact le_refl a
  | cons x xs ih => exact le_trans (le_max_left a x) (ih (max a x))

theorem le_foldl_max_of_mem {xs : List ℚ} {b : ℚ} (hb : b ∈ xs) (a : ℚ) :
    b ≤ xs.foldl max a := by
  induction xs generalizing a with
  | nil => exact absurd hb (List.not_mem_nil b)
  | cons x xs ih =>
    rw [List.foldl_cons]
    rcases List.mem_cons.mp hb with hbx | hbt
    · rw [hbx]
      exact le_trans (le_max_right a x) (le_foldl_max_init xs (max a x))
    · exact ih hbt (max a x)

theorem listMax_mem {l : List ℚ} (h : l ≠ []) : listMax l ∈ l := by
  match l, h with
  | x :: xs, _ => exact foldl_max_mem xs x

theorem le_listMax {l : List ℚ} {a : ℚ} (ha : a ∈ l) : a ≤ listMax l := by
  match l, ha with
  | x :: xs, ha =>
    rcases List.mem_cons.mp ha with hax | hat
    · rw [hax]
      exact le_foldl_max_init xs x
    · exact le_foldl_max_of_mem hat x

theorem npArgmax_lt_length {l : List ℚ} (h : l ≠ []) : npArgmax l < l.length :=
  List.findIdx_lt_length_of_exists ⟨listMax l, listMax_mem h, by simp⟩

theorem getElem_npArgmax {l : List ℚ} (hlt : npArgmax l < l.length) :
    l[npArgmax l] = listMax l := by
  have := @List.findIdx_getElem _ (fun x => x == listMax l) l hlt
  simpa [npArgmax] using this

theorem getD_npArgmax {l : List ℚ} (h : l ≠ []) :
    l.getD (npArgmax l) 0 = listMax l := by
  rw [List.getD_eq_getElem l 0 (npArgmax_lt_length h)]
  exact getElem_npArgmax (npArgmax_lt_length h)

/-- Entries strictly before the argmax are strictly below the maximum. -/
theorem lt_listMax_of_lt_npArgmax {l : List ℚ} {k : Nat} (hk : k < npArgmax l)
    (hkl : k < l.length) : l[k] < listMax l := by
  have hne : (l[k] == listMax l) = false := List.not_of_lt_findIdx hk
  have hle : l[k] ≤ listMax l := le_listMax (l.getElem_mem hkl)
  exact lt_of_le_of_ne hle (by simpa using hne)

/-- `np.argmax` picks the least index attaining the maximum: if index `i`
attains a value at least every other entry and every earlier entry is strictly
smaller, the argmax is `i`. -/
theorem npArgmax_eq_of_least {l : List ℚ} {i : Nat} (hi : i < l.length)
    (hmax : ∀ k (hk : k < l.length), l[k] ≤ l[i])
    (hfirst : ∀ k (hk : k < l.length), k < i → l[k] < l[i]) :
    npArgmax l = i := by
  have hne : l ≠ [] := by
    intro hnil
    rw [hnil] at hi
    exact absurd hi (by simp)
  have hival : l[i] = listMax l := by
    have h1 : l[i] ≤ listMax l := le_listMax (l.getElem_mem hi)
    rcases List.mem_iff_getElem.mp (listMax_mem hne) with ⟨j, hj, hjv⟩
    have h2 : listMax l ≤ l[i] := hjv ▸ hmax j hj
    exact le_antisymm h1 h2
  unfold npArgmax
  rw [List.findIdx_eq hi]
  constructor
  · simp [hival]
  · intro j hji
    have hjl : j < l.length := Nat.lt_trans hji hi
    have hlt2 : l[j] < listMax l := hival ▸ hfirst j hjl hji
    simp [ne_of_lt hlt2]

/-- Junk entry used as the `getD` default when indexing the corpus. -/
def dummyEntry : FAQEntry := ⟨"", "", ""⟩

/-- Evaluation of `get_response` on the ready path with a non-empty similarity
vector: the confidence becomes the maximum similarity and the reply is chosen
by the strict threshold test. -/
theorem get_response_some_eq (st : FAQState) (sims : List ℚ)
    (hready : st.ready = true) (hne : sims ≠ []) :
    get_response st (some sims) =
      (if 1/10 < listMax sims then
         match st.faq_data.get? (npArgmax sims) with
         | some entry => entry.answer
         | none => processErrorResponse
       else default_response,
       { st with last_confidence := listMax sims }) := by
  have hE : sims.isEmpty = false := by
    cases sims with
    | nil => exact absurd rfl hne
    | cons x xs => rfl
  cases hget : st.faq_data[npArgmax sims]? with
  | none =>
    simp only [get_response, hready, hE, getD_npArgmax hne, hget,
      List.get?_eq_getElem?, Bool.false_eq_true, if_false, if_true]
    split
    all_goals rfl
  | some e =>
    simp only [get_response, hready, hE, getD_npArgmax hne, hget,
      List.get?_eq_getElem?, Bool.false_eq_true, if_false, if_true]
    split
    all_goals rfl

/-- C1 counterexample: with every cosine similarity exactly equal to the
threshold 0.1, the maximum similarity is not below 0.1, yet `get_response`
returns the canned fallback, not the corpus answer at the argmax — the code
tests `> 0.1` strictly. -/
theorem listMax_replicate (n : Nat) (x : ℚ) (hn : n ≠ 0) :
    listMax (List.replicate n x) = x := by
  have haux : ∀ m, (List.replicate m x).foldl max x = x := by
    intro m
    induction m with
    | zero => rfl
    | succ k ih =>
      rw [List.replicate_succ, List.foldl_cons, max_self]
      exact ih
  cases n with
  | zero => exact absurd rfl hn
  | succ k =>
    rw [List.replicate_succ]
    exact haux k

theorem npArgmax_replicate (n : Nat) (x : ℚ) (hn : n ≠ 0) :
    npArgmax (List.replicate n x) = 0 := by
  cases n with
  | zero => exact absurd rfl hn
  | succ k =>
    unfold npArgmax
    rw [List.replicate_succ, List.findIdx_cons]
    have hx : (x == listMax (x :: List.replicate k x)) = true := by
      rw [← List.replicate_succ, listMax_replicate (k+1) x (Nat.succ_ne_zero k)]
      simp
    rw [hx]
    rfl

theorem getResponse_boundary_cex :
    (get_response (initFaq mkFAQ true) (some (List.replicate 28 (1/10)))).1 = default_response
    ∧ ¬ listMax (List.replicate 28 (1/10)) < 1/10
    ∧ (get_response (initFaq mkFAQ true) (some (List.replicate 28 (1/10)))).1
        ≠ (faqDataset.getD (npArgmax (List.replicate 28 (1/10))) dummyEntry).answer := by
  have hready : (initFaq mkFAQ true).ready = true := rfl
  have hne : (List.replicate 28 ((1:ℚ)/10)) ≠ [] := by simp
  have hmax : listMax (List.replicate 28 ((1:ℚ)/10)) = 1/10 :=
    listMax_replicate 28 (1/10) (by decide)
  have hval : (get_response (initFaq mkFAQ true) (some (List.replicate 28 (1/10)))).1 =
      default_response := by
    rw [get_response_some_eq _ _ hready hne]
    simp only [hmax]
    rw [if_neg (lt_irrefl ((1:ℚ)/10))]
  refine ⟨hval, by rw [hmax]; exact lt_irrefl _, ?_⟩
  rw [hval, npArgmax_replicate 28 (1/10) (by decide)]
  decide

/-- C1 (amended): for an initialized matcher and a similarity vector of the
corpus length, `get_response` returns the answer of the corpus entry at the
argmax when the maximum similarity is strictly above 0.1, returns the canned
fallback when the maximum is at or below 0.1, records the maximum similarity
as the confidence in both cases, and a caught internal exception yields the
apology string rather than an error. -/
theorem getResponse_threshold_spec (st : FAQState) (sims : List ℚ)
    (hready : st.ready = true) (hfaq : st.faq_data = faqDataset)
    (hlen : sims.length = faqDataset.length) :
    (1/10 < listMax sims →
       (get_response st (some sims)).1 =
         (st.faq_data.getD (npArgmax sims) dummyEntry).answer)
    ∧ (listMax sims ≤ 1/10 →
       (get_response st (some sims)).1 = default_response)
    ∧ (get_response st (some sims)).2.last_confidence = listMax sims
    ∧ (get_response st none).1 = processErrorResponse := by
  have hne : sims ≠ [] := by
    intro h0
    rw [h0] at hlen
    simp [faqDataset] at hlen
  have hidx : npArgmax sims < st.faq_data.length := by
    rw [hfaq, ← hlen]
    exact npArgmax_lt_length hne
  have hget : st.faq_data.get? (npArgmax sims) =
      some (st.faq_data.getD (npArgmax sims) dummyEntry) := by
    rw [List.get?_eq_getElem?, List.getElem?_eq_getElem hidx,
      List.getD_eq_getElem st.faq_data dummyEntry hidx]
  refine ⟨fun hthr => ?_, fun hthr => ?_, ?_, ?_⟩
  · rw [get_response_some_eq st sims hready hne, if_pos hthr, hget]
  · rw [get_response_some_eq st sims hready hne, if_neg (not_lt.mpr hthr)]
  · rw [get_response_some_eq st sims hready hne]
  · simp [get_response, hready]

theorem getResponse_threshold_spec_witness :
    ((initFaq mkFAQ true).ready = true
     ∧ (initFaq mkFAQ true).faq_data = faqDataset
     ∧ (List.replicate 28 (1/2 : ℚ)).length = faqDataset.length)
    ∧ (get_response (initFaq mkFAQ true) (some (List.replicate 28 (1/2)))).1 =
        ((initFaq mkFAQ true).faq_data.getD
          (npArgmax (List.replicate 28 (1/2))) dummyEntry).answer :=
  ⟨⟨rfl, rfl, rfl⟩,
   (getResponse_threshold_spec (initFaq mkFAQ true) (List.replicate 28 (1/2))
     rfl rfl rfl).1
     (by rw [listMax_replicate 28 (1/2) (by decide)]; norm_num)⟩

/-- C2: for an initialized matcher whose stored confidence satisfies the unit
interval invariant, any query — whether the similarity computation succeeds
with values in [0,1] (as cosine similarity over non-negative TF-IDF vectors
does) or raises internally — leaves the confidence readable through
`get_last_confidence` inside [0,1] and returns a non-empty reply, on the
answer, fallback, and internal-error branches alike. -/
theorem getResponse_confidence_unit_and_nonempty (st : FAQState)
    (simOpt : Option (List ℚ))
    (hready : st.ready = true) (hfaq : st.faq_data = faqDataset)
    (hprev : 0 ≤ st.last_confidence ∧ st.last_confidence ≤ 1)
    (hsim : ∀ sims, simOpt = some sims →
      (∀ x ∈ sims, 0 ≤ x ∧ x ≤ 1) ∧ sims.length = faqDataset.length) :
    (0 ≤ get_last_confidence (get_response st simOpt).2
     ∧ get_last_confidence (get_response st simOpt).2 ≤ 1)
    ∧ (get_response st simOpt).1 ≠ "" := by
  have hanswers : ∀ e ∈ faqDataset, e.answer ≠ "" := by decide
  cases simOpt with
  | none =>
    have h12 : get_response st none = (processErrorResponse, st) := by
      simp [get_response, hready]
    rw [h12]
    refine ⟨hprev, ?_⟩
    show processErrorResponse ≠ ""
    decide
  | some sims =>
    obtain ⟨hbounds, hlen⟩ := hsim sims rfl
    have hne : sims ≠ [] := by
      intro h0
      rw [h0] at hlen
      exact absurd hlen.symm (by decide)
    rw [get_response_some_eq st sims hready hne]
    have hmx := hbounds _ (listMax_mem hne)
    refine ⟨⟨hmx.1, hmx.2⟩, ?_⟩
    by_cases hthr : 1/10 < listMax sims
    · rw [if_pos hthr]
      cases hget : st.faq_data.get? (npArgmax sims) with
      | none => exact (by decide : processErrorResponse ≠ "")
      | some e =>
        have hmem : e ∈ faqDataset := by
          rw [hfaq] at hget
          exact List.get?_mem hget
        exact hanswers e hmem
    · rw [if_neg hthr]
      exact (by decide : default_response ≠ "")

theorem getResponse_confidence_unit_and_nonempty_witness :
    (0 ≤ get_last_confidence
        (get_response (initFaq mkFAQ true) (some (List.replicate 28 (1/2)))).2
     ∧ get_last_confidence
        (get_response (initFaq mkFAQ true) (some (List.replicate 28 (1/2)))).2 ≤ 1)
    ∧ (get_response (initFaq mkFAQ true) (some (List.replicate 28 (1/2)))).1 ≠ "" :=
  getResponse_confidence_unit_and_nonempty (initFaq mkFAQ true) _ rfl rfl
    ⟨le_refl 0, by show (0:ℚ) ≤ 1; norm_num⟩
    (by
      intro sims h
      injection h with h1
      subst h1
      refine ⟨?_, rfl⟩
      intro x hx
      rw [List.eq_of_mem_replicate hx]
      constructor
      · norm_num
      · norm_num)

/-- C9: when index `i` attains the maximal similarity, every index before it
is strictly smaller (so `i` is the first among the tied maxima — the `htie`
hypothesis exhibits a genuine tie at a later index), and the maximum clears
the threshold, `get_response` returns the answer of corpus entry `i`:
`np.argmax` breaks ties by the lowest index. -/
theorem getResponse_tie_lowest_index (st : FAQState) (sims : List ℚ) (i : Nat)
    (hready : st.ready = true) (hfaq : st.faq_data = faqDataset)
    (hlen : sims.length = faqDataset.length)
    (hi : i < sims.length)
    (_htie : ∃ j, ∃ hj : j < sims.length, i < j ∧ sims[j] = sims[i])
    (hmax : ∀ k (hk : k < sims.length), sims[k] ≤ sims[i])
    (hfirst : ∀ k (hk : k < sims.length), k < i → sims[k] < sims[i])
    (hthr : 1/10 < sims[i]) :
    (get_response st (some sims)).1 = (faqDataset.getD i dummyEntry).answer := by
  have hargmax : npArgmax sims = i := npArgmax_eq_of_least hi hmax hfirst
  have hne : sims ≠ [] :=
    List.ne_nil_of_length_pos (Nat.lt_of_le_of_lt (Nat.zero_le i) hi)
  have hmaxval : listMax sims = sims[i] := by
    rw [← getD_npArgmax hne, hargmax]
    exact List.getD_eq_getElem sims 0 hi
  have hifaq : i < st.faq_data.length := by
    rw [hfaq, ← hlen]
    exact hi
  have hifaq2 : i < faqDataset.length := by
    rw [← hfaq]
    exact hifaq
  have hget : st.faq_data.get? i = some (faqDataset.getD i dummyEntry) := by
    rw [List.get?_eq_getElem?, List.getElem?_eq_getElem hifaq]
    simp only [hfaq]
    rw [List.getD_eq_getElem faqDataset dummyEntry hifaq2]
  rw [get_response_some_eq st sims hready hne, hmaxval]
  simp only [if_pos hthr, hargmax, hget]

theorem getResponse_tie_lowest_index_witness :
    (get_response (initFaq mkFAQ true) (some (List.replicate 28 (1/2)))).1 =
      (faqDataset.getD 0 dummyEntry).answer :=
  getResponse_tie_lowest_index (initFaq mkFAQ true) (List.replicate 28 (1/2)) 0
    rfl rfl rfl (by decide)
    ⟨1, by decide, by decide, by rw [List.getElem_replicate, List.getElem_replicate]⟩
    (fun k hk => by rw [List.getElem_replicate, List.getElem_replicate])
    (fun k hk hki => absurd hki (Nat.not_lt_zero k))
    (by rw [List.getElem_replicate]; norm_num)

/-- C10: the not-ready branch and the caught-internal-exception branch of
`get_response` both leave the state — in particular `last_confidence` —
unchanged (its initial value being 0), so a subsequent
`get_last_confidence` (the accuracy that `/api/chat` reports) reflects an
earlier query rather than the current one. -/
theorem getResponse_stale_confidence (st : FAQState) (simOpt : Option (List ℚ)) :
    (st.ready = false → (get_response st simOpt).2 = st)
    ∧ (get_response st none).2 = st
    ∧ mkFAQ.last_confidence = 0
    ∧ get_last_confidence (get_response st none).2 = st.last_confidence := by
  refine ⟨fun hnr => ?_, ?_, rfl, ?_⟩
  · cases simOpt with
    | none => simp [get_response, hnr]
    | some sims => simp [get_response, hnr]
  · cases hr : st.ready with
    | false => simp [get_response, hr]
    | true => simp [get_response, hr]
  · cases hr : st.ready with
    | false => simp [get_response, get_last_confidence, hr]
    | true => simp [get_response, get_last_confidence, hr]

theorem getResponse_stale_confidence_witness :
    (({ faq_data := faqDataset, last_confidence := 7/10, ready := false } : FAQState).ready
        = false)
    ∧ (get_response { faq_data := faqDataset, last_confidence := 7/10, ready := false }
        (some (List.replicate 28 1))).2 =
      { faq_data := faqDataset, last_confidence := 7/10, ready := false } :=
  ⟨rfl,
   (getResponse_stale_confidence
      { faq_data := faqDataset, last_confidence := 7/10, ready := false }
      (some (List.replicate 28 1))).1 rfl⟩

/-- C4: both translation directions return the input unchanged whenever the
language is English, the service is not ready, or no model is loaded for the
requested pair; all three cases are early returns, not errors. -/
theorem translate_passthrough (svc : TranslationState) (text lang : String)
    (outT outF : Except Unit String) :
    ((lang = "en" ∨ svc.ready = false
        ∨ svc.modelKeys.contains (lang ++ "_to_en") = false) →
      translate_to_english svc text lang outT = text)
    ∧ ((lang = "en" ∨ svc.ready = false
        ∨ svc.modelKeys.contains ("en_to_" ++ lang) = false) →
      translate_from_english svc text lang outF = text) := by
  constructor
  · intro h
    rcases h with h | h | h
    · simp [translate_to_english, h]
    · simp [translate_to_english, h]
    · have h2 : ¬ lang ++ "_to_en" ∈ svc.modelKeys := by simpa using h
      simp [translate_to_english, h2]
  · intro h
    rcases h with h | h | h
    · simp [translate_from_english, h]
    · simp [translate_from_english, h]
    · have h2 : ¬ "en_to_" ++ lang ∈ svc.modelKeys := by simpa using h
      simp [translate_from_english, h2]

theorem translate_passthrough_witness :
    translate_to_english ⟨false, []⟩ "hola amigo" "es" (Except.ok "hello friend")
      = "hola amigo"
    ∧ translate_from_english ⟨true, ["es_to_en"]⟩ "hello" "de" (Except.ok "hallo")
      = "hello" :=
  ⟨(translate_passthrough ⟨false, []⟩ "hola amigo" "es"
      (Except.ok "hello friend") (Except.ok "hello friend")).1 (Or.inr (Or.inl rfl)),
   (translate_passthrough ⟨true, ["es_to_en"]⟩ "hello" "de"
      (Except.ok "hallo") (Except.ok "hallo")).2 (Or.inr (Or.inr (by decide)))⟩

/-- C5: on a not-ready store, `log_query` hands back the next fresh uuid and
advances the entropy counter without touching the table — under the invariant
that every stored id was drawn earlier, the returned id is distinct from all
persisted ids — and `log_response` returns the state unchanged; neither
operation can fail. -/
theorem logger_notReady_noop (st : LoggerState) (now : Int)
    (msg lang : String) (sess : Option Nat) (f1 : Bool)
    (qid : Nat) (resp : String) (acc rt : ℚ) (f2 : Bool)
    (hnr : st.ready = false)
    (hids : ∀ r ∈ st.db, r.id < st.uuidCtr) :
    (log_query st now msg lang sess f1).1 = st.uuidCtr
    ∧ (log_query st now msg lang sess f1).2.db = st.db
    ∧ (log_query st now msg lang sess f1).2.uuidCtr = st.uuidCtr + 1
    ∧ (log_query st now msg lang sess f1).1 ∉ st.db.map QueryRecord.id
    ∧ log_response st qid resp acc rt f2 = st := by
  have h1 : log_query st now msg lang sess f1 =
      (st.uuidCtr, { st with uuidCtr := st.uuidCtr + 1 }) := by
    simp [log_query, hnr]
  refine ⟨by rw [h1], by rw [h1], by rw [h1], ?_, by simp [log_response, hnr]⟩
  rw [h1]
  intro hmem
  rcases List.mem_map.mp hmem with ⟨r, hr, hrid⟩
  exact absurd (hrid ▸ hids r hr) (lt_irrefl _)

/-- A sample persisted row used by witnesses. -/
def sampleRec : QueryRecord :=
  { id := 0, timestamp := 0, user_message := "m", language := "en",
    response := none, accuracy := none, response_time := none, session_id := 1 }

/-- A not-ready store holding one row, used by witnesses. -/
def staleLogger : LoggerState := { ready := false, db := [sampleRec], uuidCtr := 5 }

theorem logger_notReady_noop_witness :
    staleLogger.ready = false
    ∧ (log_query staleLogger 3 "hello" "en" none false).1 = 5
    ∧ (log_query staleLogger 3 "hello" "en" none false).2.db = [sampleRec]
    ∧ log_response staleLogger 9 "r" 1 0 false = staleLogger :=
  ⟨rfl,
   (logger_notReady_noop staleLogger 3 "hello" "en" none false 9 "r" 1 0 false rfl
      (by decide)).1,
   (logger_notReady_noop staleLogger 3 "hello" "en" none false 9 "r" 1 0 false rfl
      (by decide)).2.1,
   (logger_notReady_noop staleLogger 3 "hello" "en" none false 9 "r" 1 0 false rfl
      (by decide)).2.2.2.2⟩

/-- C3: for a parsed request body, `/api/chat` answers 400 with the
error payload exactly when the message is empty after stripping; for a
non-empty message a successful pipeline yields 200 with exactly the keys
`response`, `language`, `accuracy`, `query_id` (in that order), and an
unexpected internal fault — in the pipeline or already in body parsing — is
caught and answered as 500, never propagated. -/
theorem chat_status_spec (data : ChatRequest)
    (pipeline : String → String → Except Unit PipelineResult) :
    ((chat (.ok data) pipeline).1 = 400 ↔ pyStrip (data.message.getD "") = "")
    ∧ (pyStrip (data.message.getD "") = "" →
        chat (.ok data) pipeline =
          (400, [("error", JsonVal.str "Message cannot be empty")]))
    ∧ (∀ pr, pyStrip (data.message.getD "") ≠ "" →
        pipeline (pyStrip (data.message.getD "")) (data.language.getD "en") =
          .ok pr →
        (chat (.ok data) pipeline).1 = 200
        ∧ (chat (.ok data) pipeline).2.map Prod.fst =
            ["response", "language", "accuracy", "query_id"])
    ∧ (pyStrip (data.message.getD "") ≠ "" →
        pipeline (pyStrip (data.message.getD "")) (data.language.getD "en") =
          .error () →
        (chat (.ok data) pipeline).1 = 500)
    ∧ (chat (.error ()) pipeline).1 = 500 := by
  by_cases hm : pyStrip (data.message.getD "") = ""
  · have hc : chat (.ok data) pipeline =
        (400, [("error", JsonVal.str "Message cannot be empty")]) := by
      simp [chat, hm]
    refine ⟨⟨fun _ => hm, fun _ => by rw [hc]⟩, fun _ => hc, ?_, ?_, by simp [chat]⟩
    · intro pr hne
      exact absurd hm hne
    · intro hne
      exact absurd hm hne
  · have hbeq : (pyStrip (data.message.getD "") == "") = false := by
      simpa using hm
    refine ⟨⟨?_, fun hx => absurd hx hm⟩, fun hx => absurd hx hm, ?_, ?_,
      by simp [chat]⟩
    · intro h400
      cases hp : pipeline (pyStrip (data.message.getD "")) (data.language.getD "en") with
      | ok pr =>
        rw [show chat (.ok data) pipeline =
            (200, [("response", JsonVal.str pr.final_response),
                   ("language", JsonVal.str (data.language.getD "en")),
                   ("accuracy", JsonVal.num pr.accuracy),
                   ("query_id", JsonVal.num pr.query_id)]) from by simp [chat, hbeq, hp]]
          at h400
        simp at h400
      | error e =>
        rw [show chat (.ok data) pipeline =
            (500, [("error", JsonVal.str "Internal server error")]) from by
          simp [chat, hbeq, hp]] at h400
        simp at h400
    · intro pr hne hp
      constructor
      · simp [chat, hbeq, hp]
      · simp [chat, hbeq, hp]
    · intro hne hp
      simp [chat, hbeq, hp]

theorem chat_status_spec_witness :
    (pyStrip ((some "  hi  " : Option String).getD "") ≠ ""
     ∧ (chat (.ok { message := some "  hi  ", language := some "en" })
          (fun _ _ => .ok { final_response := "ans", accuracy := 1/2, query_id := 7 })).1
        = 200
     ∧ (chat (.ok { message := some "  hi  ", language := some "en" })
          (fun _ _ => .ok { final_response := "ans", accuracy := 1/2, query_id := 7 })).2.map
            Prod.fst = ["response", "language", "accuracy", "query_id"])
    ∧ (chat (.ok { message := some "", language := some "en" })
        (fun _ _ => .ok { final_response := "ans", accuracy := 1/2, query_id := 7 })).1
      = 400 :=
  ⟨⟨by decide,
    ((chat_status_spec { message := some "  hi  ", language := some "en" }
        (fun _ _ => .ok { final_response := "ans", accuracy := 1/2, query_id := 7 })).2.2.1
      { final_response := "ans", accuracy := 1/2, query_id := 7 } (by decide) rfl).1,
    ((chat_status_spec { message := some "  hi  ", language := some "en" }
        (fun _ _ => .ok { final_response := "ans", accuracy := 1/2, query_id := 7 })).2.2.1
      { final_response := "ans", accuracy := 1/2, query_id := 7 } (by decide) rfl).2⟩,
   (chat_status_spec { message := some "", language := some "en" }
      (fun _ _ => .ok { final_response := "ans", accuracy := 1/2, query_id := 7 })).1.mpr
     (by decide)⟩

/-! ## Logged-and-answered batches (claims C6, C7) -/

/-- One logged-and-answered interaction: the user message and language given
to `log_query`, and the response text and confidence given to `log_response`. -/
structure LoggedItem where
  msg : String
  lang : String
  resp : String
  acc : ℚ
deriving Repr

/-- Run N interactions against the store: each is logged with `log_query`
(no session id, no fault) and answered with `log_response` at the returned
query id (no fault), as `/api/chat` does (app.py lines 46 and 65). -/
def runLoggedBatch (st : LoggerState) (now : Int) : List LoggedItem → LoggerState
  | [] => st
  | it :: rest =>
    runLoggedBatch
      (log_response (log_query st now it.msg it.lang none false).2
        (log_query st now it.msg it.lang none false).1 it.resp it.acc 0 false)
      now rest

/-- The row a single logged-and-answered interaction leaves behind when the
store counter stands at `ctr`. -/
def ansRec (ctr : Nat) (now : Int) (it : LoggedItem) : QueryRecord :=
  { id := ctr, timestamp := now, user_message := it.msg, language := it.lang,
    response := some it.resp, accuracy := some it.acc, response_time := some 0,
    session_id := ctr + 1 }

/-- An update keyed on an id absent from the table leaves every row alone. -/
theorem map_upd_of_id_notin {db : List QueryRecord} {qid : Nat}
    (h : ∀ r ∈ db, r.id ≠ qid) (f : QueryRecord → QueryRecord) :
    db.map (fun r => if r.id == qid then f r else r) = db := by
  induction db with
  | nil => rfl
  | cons r rs ih =>
    rw [List.map_cons]
    have hr : (r.id == qid) = false := by
      simpa using h r (List.mem_cons_self r rs)
    rw [hr]
    simp only [Bool.false_eq_true, if_false]
    rw [ih (fun x hx => h x (List.mem_cons_of_mem r hx))]

/-- Effect of one logged-and-answered interaction on a ready store whose
persisted ids are all below the counter. -/
theorem logged_step (st : LoggerState) (now : Int) (it : LoggedItem)
    (hready : st.ready = true) (hids : ∀ r ∈ st.db, r.id < st.uuidCtr) :
    log_response (log_query st now it.msg it.lang none false).2
        (log_query st now it.msg it.lang none false).1 it.resp it.acc 0 false =
      { ready := st.ready, db := st.db ++ [ansRec st.uuidCtr now it],
        uuidCtr := st.uuidCtr + 2 } := by
  have hq : log_query st now it.msg it.lang none false =
      (st.uuidCtr,
       { st with
          db := st.db ++ [{ id := st.uuidCtr, timestamp := now,
                            user_message := it.msg, language := it.lang,
                            response := none, accuracy := none,
                            response_time := none, session_id := st.uuidCtr + 1 }],
          uuidCtr := st.uuidCtr + 2 }) := by
    simp [log_query, hready]
  rw [hq]
  simp only [log_response, hready, Bool.not_true, Bool.false_eq_true, if_false]
  congr 1
  rw [List.map_append]
  rw [map_upd_of_id_notin (fun r hr => Nat.ne_of_lt (hids r hr)) _]
  simp [ansRec]

/-- Batch invariant: a batch of N interactions preserves readiness and the
id bound, adds N answered rows, and appends exactly the batch confidences to
the recorded accuracies. -/
theorem runLoggedBatch_props (now : Int) (items : List LoggedItem) :
    ∀ st : LoggerState, st.ready = true → (∀ r ∈ st.db, r.id < st.uuidCtr) →
      (runLoggedBatch st now items).ready = true
      ∧ (∀ r ∈ (runLoggedBatch st now items).db,
          r.id < (runLoggedBatch st now items).uuidCtr)
      ∧ (answeredRows (runLoggedBatch st now items).db).length =
          (answeredRows st.db).length + items.length
      ∧ accuracies (runLoggedBatch st now items).db =
          accuracies st.db ++ items.map LoggedItem.acc := by
  induction items with
  | nil =>
    intro st hready hids
    refine ⟨hready, hids, by simp [runLoggedBatch], by simp [runLoggedBatch]⟩
  | cons it rest ih =>
    intro st hready hids
    have hstep := logged_step st now it hready hids
    have hrun : runLoggedBatch st now (it :: rest) =
        runLoggedBatch
          { ready := st.ready, db := st.db ++ [ansRec st.uuidCtr now it],
            uuidCtr := st.uuidCtr + 2 } now rest := by
      rw [runLoggedBatch]
      rw [hstep]
    have hids2 : ∀ r ∈ st.db ++ [ansRec st.uuidCtr now it], r.id < st.uuidCtr + 2 := by
      intro r hr
      rcases List.mem_append.mp hr with hr | hr
      · exact Nat.lt_trans (hids r hr) (by omega)
      · rcases List.mem_singleton.mp hr with rfl
        show st.uuidCtr < st.uuidCtr + 2
        omega
    have hrec := ih
      { ready := st.ready, db := st.db ++ [ansRec st.uuidCtr now it],
        uuidCtr := st.uuidCtr + 2 } hready hids2
    rw [hrun]
    refine ⟨hrec.1, hrec.2.1, ?_, ?_⟩
    · rw [hrec.2.2.1]
      have hans : answeredRows (st.db ++ [ansRec st.uuidCtr now it]) =
          answeredRows st.db ++ [ansRec st.uuidCtr now it] := by
        rw [answeredRows, List.filter_append]
        rfl
      rw [hans]
      simp only [List.length_append, List.length_cons, List.length_nil]
      omega
    · rw [hrec.2.2.2]
      have hacc : accuracies (st.db ++ [ansRec st.uuidCtr now it]) =
          accuracies st.db ++ [it.acc] := by
        rw [accuracies, List.filterMap_append]
        rfl
      rw [hacc, List.map_cons, List.append_assoc]
      rfl

/-- A freshly initialized store: ready, empty table, counter at zero. -/
def readyLogger : LoggerState := initLogger mkLogger true

/-- The single interaction used by the C6 counterexample. -/
def cexItem : LoggedItem := { msg := "q", lang := "en", resp := "r", acc := 1/10000 }

/-- The recent-queries entry that interaction produces. -/
def cexRecent : RecentEntry :=
  { timestamp := 0, message := "q", language := "en", accuracy := some (1/10000) }

/-- The statistics the code reports for that single interaction. -/
def cexStats : StatsView :=
  { total_queries := 1, average_accuracy := 0, recent_queries := [cexRecent] }

/-- C6 counterexample: one query logged and answered with confidence 1/10000.
The code reports `average_accuracy = round(avg, 3) = 0`, while the arithmetic
mean of the recorded confidences is 1/10000 — the two differ, so
`average_accuracy` is not the mean. -/
theorem stats_average_rounded_cex :
    get_statistics (runLoggedBatch readyLogger 0 [cexItem]) false = Except.ok cexStats
    ∧ sqlAvg (accuracies (runLoggedBatch readyLogger 0 [cexItem]).db) = 1/10000
    ∧ (0 : ℚ) ≠ 1/10000 := by
  have h1 : runLoggedBatch readyLogger 0 [cexItem] =
      { ready := true, db := [ansRec 0 0 cexItem], uuidCtr := 2 } := by
    rw [runLoggedBatch]
    rw [logged_step readyLogger 0 _ rfl
      (by intro r hr; simp [readyLogger, initLogger, mkLogger] at hr)]
    rw [runLoggedBatch]
    rfl
  have havg : pyRound3 (sqlAvg [(1:ℚ)/10000]) = 0 := by
    norm_num [pyRound3, sqlAvg]
  refine ⟨?_, ?_, by norm_num⟩
  · rw [h1]
    simp only [get_statistics, answeredRows, accuracies, ansRec, cexItem]
    simp only [List.filter, List.filterMap, Option.isSome_some]
    simp [List.insertionSort, List.orderedInsert, mkRecent, displayMessage,
      ansRec, havg, cexStats, cexRecent, cexItem]
    constructor
    · norm_num [pyRound3, sqlAvg]
    · intro h
      exact absurd h (by decide)
  · rw [h1]
    simp only [accuracies, ansRec, cexItem, List.filterMap]
    norm_num [sqlAvg]

/-- C6 (amended): after N ≥ 1 queries each logged via `log_query` and answered
via `log_response` on a fresh store, `get_statistics` reports `total_queries`
equal to N (the count of rows with a non-null response) and
`average_accuracy` equal to the arithmetic mean of the recorded confidences
rounded to 3 decimal places (the code applies `round(·, 3)`). -/
theorem stats_after_batch (now : Int) (items : List LoggedItem)
    (hne : items ≠ []) :
    ∃ s, get_statistics (runLoggedBatch readyLogger now items) false = Except.ok s
      ∧ s.total_queries = items.length
      ∧ s.average_accuracy =
          pyRound3 ((items.map LoggedItem.acc).sum / items.length) := by
  obtain ⟨hready, hids, hlen, hacc⟩ :=
    runLoggedBatch_props now items readyLogger rfl
      (by intro r hr; simp [readyLogger, initLogger, mkLogger] at hr)
  have hdb0 : answeredRows readyLogger.db = [] := rfl
  have hacc0 : accuracies readyLogger.db = [] := rfl
  have hstats : get_statistics (runLoggedBatch readyLogger now items) false =
      Except.ok
        { total_queries := (answeredRows (runLoggedBatch readyLogger now items).db).length,
          average_accuracy :=
            pyRound3 (sqlAvg (accuracies (runLoggedBatch readyLogger now items).db)),
          recent_queries :=
            ((List.insertionSort tsGe
              (answeredRows (runLoggedBatch readyLogger now items).db)).take 10).map
                mkRecent } := by
    simp [get_statistics, hready]
  refine ⟨_, hstats, ?_, ?_⟩
  · show (answeredRows (runLoggedBatch readyLogger now items).db).length = items.length
    rw [hlen, hdb0]
    simp
  · show pyRound3 (sqlAvg (accuracies (runLoggedBatch readyLogger now items).db)) =
      pyRound3 ((items.map LoggedItem.acc).sum / items.length)
    rw [hacc, hacc0, List.nil_append]
    have hlm : (items.map LoggedItem.acc).length = items.length := List.length_map _ _
    have hn0 : (items.map LoggedItem.acc).length ≠ 0 := by
      rw [hlm]
      intro h0
      exact hne (List.eq_nil_of_length_eq_zero h0)
    rw [sqlAvg, if_neg hn0, hlm]

/-- Two interactions used by the C6 witness. -/
def witItems : List LoggedItem :=
  [{ msg := "a", lang := "en", resp := "r1", acc := 1/2 },
   { msg := "b", lang := "fr", resp := "r2", acc := 1 }]

theorem stats_after_batch_witness :
    witItems ≠ []
    ∧ ∃ s, get_statistics (runLoggedBatch readyLogger 5 witItems) false = Except.ok s
        ∧ s.total_queries = witItems.length
        ∧ s.average_accuracy =
            pyRound3 ((witItems.map LoggedItem.acc).sum / witItems.length) :=
  ⟨List.cons_ne_nil _ _, stats_after_batch 5 witItems (List.cons_ne_nil _ _)⟩

/-- C7 (amended): for a ready store, `recent_queries` is the image of the
first 10 elements of a descending-timestamp ordering of the answered rows —
so it holds the 10 most recent answered queries in descending timestamp
order — and each displayed message is the stored user message when it has at
most 100 characters, and its first 100 characters with "..." appended when it
is longer (not a plain truncation to 100 characters). -/
theorem stats_recent_spec (st : LoggerState) (h : st.ready = true) :
    ∃ s, get_statistics st false = Except.ok s
      ∧ ∃ l : List QueryRecord, l.Perm (answeredRows st.db)
          ∧ l.Pairwise tsGe
          ∧ s.recent_queries = (l.take 10).map (fun r =>
              { timestamp := r.timestamp,
                message := if r.user_message.length > 100
                           then r.user_message.take 100 ++ "..."
                           else r.user_message,
                language := r.language, accuracy := r.accuracy })
          ∧ s.recent_queries.length ≤ 10 := by
  have hstats : get_statistics st false =
      Except.ok
        { total_queries := (answeredRows st.db).length,
          average_accuracy := pyRound3 (sqlAvg (accuracies st.db)),
          recent_queries :=
            ((List.insertionSort tsGe (answeredRows st.db)).take 10).map mkRecent } := by
    simp [get_statistics, h]
  refine ⟨_, hstats, List.insertionSort tsGe (answeredRows st.db), ?_, ?_, rfl, ?_⟩
  · exact List.perm_insertionSort tsGe _
  · exact List.sorted_insertionSort tsGe _
  · show (((List.insertionSort tsGe (answeredRows st.db)).take 10).map mkRecent).length ≤ 10
    rw [List.length_map, List.length_take]
    exact min_le_left _ _

/-- A ready store with one answered row, used by the C7 witness. -/
def readyOneLogger : LoggerState :=
  { ready := true,
    db := [{ id := 0, timestamp := 3, user_message := "m", language := "en",
             response := some "r", accuracy := some 1, response_time := some 0,
             session_id := 1 }],
    uuidCtr := 2 }

theorem stats_recent_spec_witness :
    readyOneLogger.ready = true
    ∧ ∃ s, get_statistics readyOneLogger false = Except.ok s
        ∧ ∃ l : List QueryRecord, l.Perm (answeredRows readyOneLogger.db)
            ∧ l.Pairwise tsGe
            ∧ s.recent_queries = (l.take 10).map (fun r =>
                { timestamp := r.timestamp,
                  message := if r.user_message.length > 100
                             then r.user_message.take 100 ++ "..."
                             else r.user_message,
                  language := r.language, accuracy := r.accuracy })
            ∧ s.recent_queries.length ≤ 10 :=
  ⟨rfl, stats_recent_spec readyOneLogger rfl⟩

/-- A stored message of 101 characters. -/
def msg101 : String := String.mk (List.replicate 101 'a')

/-- A ready store holding one answered row whose message has 101 characters. -/
def longLogger : LoggerState :=
  { ready := true,
    db := [{ id := 0, timestamp := 5, user_message := msg101, language := "en",
             response := some "resp", accuracy := some 1, response_time := some 0,
             session_id := 1 }],
    uuidCtr := 2 }

/-- The displayed messages of the recent-queries list. -/
def recentMessages (e : Except String StatsView) : List String :=
  match e with
  | .ok s => s.recent_queries.map RecentEntry.message
  | .error _ => []

/-- C7 counterexample: for a stored 101-character message, the displayed
recent-queries message is its first 100 characters with "..." appended — a
103-character string, which is not the stored message truncated to at most
100 characters. -/
theorem stats_recent_truncation_cex :
    recentMessages (get_statistics longLogger false) =
      [String.mk (List.replicate 100 'a') ++ "..."]
    ∧ (String.mk (List.replicate 100 'a') ++ "...").length = 103
    ∧ ¬ ((String.mk (List.replicate 100 'a') ++ "...").length ≤ 100)
    ∧ String.mk (List.replicate 100 'a') ++ "..." ≠ msg101.take 100
    ∧ String.mk (List.replicate 100 'a') ++ "..." ≠ msg101 := by
  refine ⟨?_, by decide, by decide, by decide, by decide⟩
  show (List.map RecentEntry.message
    (((List.insertionSort tsGe (answeredRows longLogger.db)).take 10).map mkRecent)) =
    [String.mk (List.replicate 100 'a') ++ "..."]
  decide
